import Mathlib

/-!
Verification of the submission coordinator core of the repository
(`src/hooks/useSubmission.ts` and the mock-API service module).

The embedding is shallow: the TypeScript data interfaces become Lean
structures, the module-level `idempotencyStore` (a JS `Map`) becomes an
explicit association list threaded through every call, and each source of
randomness or wall-clock time (`Math.random()`, `Date.now()`) becomes an
explicit input.  `async`/`await` delays are modelled by reporting the
artificial delay consumed; the interleaving itself is not modelled.
-/

namespace Spec2Proof

/-! ### Data model (src/types/index.ts) -/

/-- Statuses `"pending" | "success" | "error" | "retry"` of `Submission.status`. -/
inductive Status where
  | pending
  | success
  | error
  | retry
deriving DecidableEq

/-- Interface `FormData` from src/types/index.ts.  The JS `amount: number` is modelled
as an integer; no claim depends on fractional amounts. -/
structure FormData where
  email : String
  amount : Int
deriving DecidableEq

/-- Interface `Submission` from src/types/index.ts (`FormData` fields inlined). -/
structure Submission where
  email : String
  amount : Int
  id : String
  timestamp : Nat
  status : Status
  retryCount : Nat
  errorMessage : Option String
deriving DecidableEq

/-- Interface `ApiResponse` from src/types/index.ts. -/
structure ApiResponse where
  success : Bool
  data : Option Submission
  error : Option String
deriving DecidableEq

/-- Interface `MockApiConfig` from src/types/index.ts.  JS numbers become rationals. -/
structure MockApiConfig where
  successRate : Rat
  failureRate : Rat
  delayedRate : Rat
  minDelay : Rat
  maxDelay : Rat
deriving DecidableEq

/-! ### Mock API service module -/

/-- Constant `DEFAULT_CONFIG` of the mock API module. -/
def DEFAULT_CONFIG : MockApiConfig :=
  { successRate := 2/5     -- 0.4, 40% success
    failureRate := 3/10    -- 0.3, 30% 503 errors
    delayedRate := 3/10    -- 0.3, 30% delayed success
    minDelay := 5000
    maxDelay := 10000 }

/-- The module-level `idempotencyStore : Map<string, Submission>`, made
explicit.  `Map.get` is `List.lookup`; `Map.set` conses (the code only ever
sets a key that is absent, so first-match lookup agrees with JS `Map`). -/
abbrev IdemStore := List (String × Submission)

/-- Operation `Map.set` on the idempotency store. -/
def storeSet (key : String) (s : Submission) (store : IdemStore) : IdemStore :=
  (key, s) :: store

/-- Operations `Map.get` / `Map.has` on the idempotency store: first entry with the
given key. -/
def storeLookup (key : String) : IdemStore → Option Submission
  | [] => none
  | (k, v) :: rest => if k = key then some v else storeLookup key rest

/-- How many entries the store holds for a given key. -/
def countKey (key : String) : IdemStore → Nat
  | [] => 0
  | (k, _) :: rest => (if k = key then 1 else 0) + countKey key rest

/-- Function `generateIdempotencyKey(email, timestamp)`:
`Math.floor(timestamp / 1000) * 1000` then the template string
`` `${email}:${roundedTimestamp}` ``. -/
def generateIdempotencyKey (email : String) (timestamp : Nat) : String :=
  let roundedTimestamp := timestamp / 1000 * 1000
  email ++ ":" ++ toString roundedTimestamp

/-- The ambient inputs of one `submitToMockApi` invocation:
the branch draw `Math.random()`, the id-suffix draw
`Math.random().toString(36).substr(2, 9)`, the clock `Date.now()`, and the
delay draw used on the delayed-success path. -/
structure AttemptDraw where
  random : Rat
  idSuffix : String
  now : Nat
  delayDraw : Rat
deriving DecidableEq

/-- Result of one `submitToMockApi` call: the response, the store after the
call, and the artificial delay consumed (`0` on every immediate path). -/
structure MockApiOut where
  response : ApiResponse
  store : IdemStore
  delay : Rat
deriving DecidableEq

/-- Function `submitToMockApi(formData, idempotencyKey, config)` translated
clause-for-clause from the mock API module.  The merged `finalConfig` is the
`config` argument (the hook always calls it with the defaults). -/
def submitToMockApi (formData : FormData) (idempotencyKey : String)
    (draw : AttemptDraw) (store : IdemStore)
    (config : MockApiConfig := DEFAULT_CONFIG) : MockApiOut :=
  -- Check if this request was already processed (idempotency)
  match storeLookup idempotencyKey store with
  | some cached =>
      -- Return cached result without processing again
      { response :=
          { success := cached.status = Status.success
            data := some cached
            error := if cached.status = Status.error then cached.errorMessage
                     else none }
        store := store
        delay := 0 }
  | none =>
      -- Generate response type
      let random := draw.random
      let isSuccess := random < config.successRate
      let isFailure := random < config.successRate + config.failureRate
      let isDelayed := ¬isSuccess ∧ ¬isFailure
      -- Create submission record
      let submission : Submission :=
        { email := formData.email
          amount := formData.amount
          id := toString draw.now ++ "-" ++ draw.idSuffix
          timestamp := draw.now
          status := Status.pending
          retryCount := 0
          errorMessage := none }
      -- Handle delayed response
      if isDelayed then
        let delay :=
          draw.delayDraw * (config.maxDelay - config.minDelay) + config.minDelay
        let s := { submission with status := Status.success }
        { response := { success := true, data := some s, error := none }
          store := storeSet idempotencyKey s store
          delay := delay }
      -- Handle temporary failure
      else if isFailure then
        -- the source mutates `submission` to an error record but returns a
        -- bare error response and does not cache it
        { response :=
            { success := false
              data := none
              error := some "Service temporarily unavailable" }
          store := store
          delay := 0 }
      -- Handle success
      else
        let s := { submission with status := Status.success }
        { response := { success := true, data := some s, error := none }
          store := storeSet idempotencyKey s store
          delay := 0 }

/-- Function `clearIdempotencyStore()`. -/
def clearIdempotencyStore : IdemStore := []

/-- Function `getAllSubmissions()`. -/
def getAllSubmissions (store : IdemStore) : List Submission :=
  store.map Prod.snd

/-! ### Submission coordinator (src/hooks/useSubmission.ts) -/

def MAX_RETRIES : Nat := 3

/-- Two seconds between retries. -/
def RETRY_DELAY : Nat := 2000

/-- The mutable state of the hook: the four `useState` cells, the
`submissionInProgressRef` in-flight token, and the module-level idempotency
store the mock API reads and writes. -/
structure HookState where
  submissions : List Submission
  isSubmitting : Bool
  error : Option String
  currentSubmission : Option Submission
  inFlight : Option String
  store : IdemStore
deriving DecidableEq

/-- How one `submit(formData)` invocation ends.  `fellThrough` marks the
while-loop exiting by its condition turning false (no terminal snapshot), a
path the proofs show is unreachable. -/
inductive SubmitOutcome where
  | alreadyInProgress
  | succeeded (s : Submission)
  | failed (s : Submission)
  | fellThrough
deriving DecidableEq

/-- Result of one `submit` invocation: the hook state it leaves behind, how
it ended, how many times it called `submitToMockApi`, and every
`setCurrentSubmission` snapshot in emission order. -/
structure SubmitResult where
  state : HookState
  outcome : SubmitOutcome
  endpointCalls : Nat
  snapshots : List Submission
deriving DecidableEq

/-- Exit of the retry loop through `response.success && response.data`
(lines 64–75 of the hook). -/
def successExit (retryCount calls : Nat) (snaps : List Submission)
    (st : HookState) (d : Submission) : SubmitResult :=
  let successSubmission : Submission :=
    { d with retryCount := retryCount, status := Status.success }
  { state :=
      { st with
        submissions := successSubmission :: st.submissions
        currentSubmission := some successSubmission
        inFlight := none
        isSubmitting := false }
    outcome := SubmitOutcome.succeeded successSubmission
    endpointCalls := calls
    snapshots := (successSubmission :: snaps).reverse }

/-- The max-retries-exceeded exit of the retry loop (lines 93–106). -/
def failExit (pending : Submission) (retryCount calls : Nat)
    (snaps : List Submission) (st : HookState) (lastError : String) :
    SubmitResult :=
  let failedSubmission : Submission :=
    { pending with
      status := Status.error
      retryCount := retryCount
      errorMessage :=
        some ("Failed after " ++ toString MAX_RETRIES ++ " retries: "
          ++ lastError) }
  { state :=
      { st with
        currentSubmission := some failedSubmission
        error := some ("Submission failed: " ++ lastError)
        inFlight := none
        isSubmitting := false }
    outcome := SubmitOutcome.failed failedSubmission
    endpointCalls := calls
    snapshots := (failedSubmission :: snaps).reverse }

/-- Loop `while (retryCount <= MAX_RETRIES)` of `submit`.  Here `fuel` bounds
the recursion; `submit` supplies `MAX_RETRIES + 1`, which the termination
theorem shows is always enough.  Attempt number `retryCount` reads its
ambient inputs from `draws`.  The `catch` arm of the source is dead here because the
embedded `submitToMockApi` is total. -/
def submitLoopAux (formData : FormData) (idempotencyKey : String)
    (pending : Submission) (draws : Nat → AttemptDraw) (cfg : MockApiConfig) :
    Nat → Nat → HookState → Nat → List Submission → SubmitResult
  | 0, _, st, calls, snaps =>
      { state := st
        outcome := SubmitOutcome.fellThrough
        endpointCalls := calls
        snapshots := snaps.reverse }
  | fuel + 1, retryCount, st, calls, snaps =>
      if retryCount ≤ MAX_RETRIES then
        let out := submitToMockApi formData idempotencyKey (draws retryCount)
          st.store cfg
        let st1 : HookState := { st with store := out.store }
        match out.response.success, out.response.data with
        | true, some d =>
            -- Success!
            successExit retryCount (calls + 1) snaps st1 d
        | _, _ =>
            -- API returned an error
            let lastError :=
              out.response.error.getD "Unknown error occurred"
            if retryCount < MAX_RETRIES then
              -- Update submission to show retry, wait RETRY_DELAY, retryCount++
              let retrySubmission : Submission :=
                { pending with
                  status := Status.retry
                  retryCount := retryCount + 1
                  errorMessage :=
                    some ("Failed: " ++ lastError ++ ". Retrying...") }
              let st2 : HookState :=
                { st1 with currentSubmission := some retrySubmission }
              submitLoopAux formData idempotencyKey pending draws cfg fuel
                (retryCount + 1) st2 (calls + 1) (retrySubmission :: snaps)
            else
              -- Max retries exceeded
              failExit pending retryCount (calls + 1) snaps st1 lastError
      else
        { state := st
          outcome := SubmitOutcome.fellThrough
          endpointCalls := calls
          snapshots := snaps.reverse }

/-- The in-flight dedupe token `` `${formData.email}:${formData.amount}` ``. -/
def dedupeToken (formData : FormData) : String :=
  formData.email ++ ":" ++ toString formData.amount

/-- Operation `submit(formData)` from the hook.  Input `submissionTimestamp` is the
`Date.now()` at entry, `pendingIdSuffix` the random id suffix for the
pending snapshot, `draws` the ambient inputs of each endpoint attempt. -/
def submit (st : HookState) (formData : FormData)
    (submissionTimestamp : Nat) (pendingIdSuffix : String)
    (draws : Nat → AttemptDraw) (cfg : MockApiConfig := DEFAULT_CONFIG) :
    SubmitResult :=
  -- Prevent duplicate submissions while one is in progress
  let currentKey := dedupeToken formData
  if st.inFlight = some currentKey then
    { state := { st with error := some "Request already in progress. Please wait." }
      outcome := SubmitOutcome.alreadyInProgress
      endpointCalls := 0
      snapshots := [] }
  else
    let st1 : HookState :=
      { st with
        isSubmitting := true
        error := none
        inFlight := some currentKey }
    let idempotencyKey :=
      generateIdempotencyKey formData.email submissionTimestamp
    let pendingSubmission : Submission :=
      { email := formData.email
        amount := formData.amount
        id := toString submissionTimestamp ++ "-" ++ pendingIdSuffix
        timestamp := submissionTimestamp
        status := Status.pending
        retryCount := 0
        errorMessage := none }
    let st2 : HookState := { st1 with currentSubmission := some pendingSubmission }
    submitLoopAux formData idempotencyKey pendingSubmission draws cfg
      (MAX_RETRIES + 1) 0 st2 0 [pendingSubmission]

/-! ### Decimal-representation facts

`generateIdempotencyKey` embeds the rounded timestamp via `toString`, i.e.
`Nat.repr`.  The key-distinctness half of the spec needs `Nat.repr` to be
injective, which we prove by evaluating the digit string back to the number
it denotes. -/

/-- The digit string of `n`, most significant first; agrees with
`Nat.toDigits 10 n`. -/
def natChars (n : Nat) : List Char :=
  if n < 10 then [Nat.digitChar n]
  else natChars (n / 10) ++ [Nat.digitChar (n % 10)]
decreasing_by exact Nat.div_lt_self (by omega) (by norm_num)

theorem natChars_lt (n : Nat) (h : n < 10) : natChars n = [Nat.digitChar n] := by
  rw [natChars, if_pos h]

theorem natChars_ge (n : Nat) (h : ¬n < 10) :
    natChars n = natChars (n / 10) ++ [Nat.digitChar (n % 10)] := by
  rw [natChars, if_neg h]

theorem toDigitsCore_eq_natChars :
    ∀ (fuel n : Nat) (acc : List Char), n < fuel →
      Nat.toDigitsCore 10 fuel n acc = natChars n ++ acc := by
  intro fuel
  induction fuel with
  | zero => intro n acc h; omega
  | succ fuel ih =>
    intro n acc h
    show (if n / 10 = 0 then Nat.digitChar (n % 10) :: acc
          else Nat.toDigitsCore 10 fuel (n / 10) (Nat.digitChar (n % 10) :: acc))
        = natChars n ++ acc
    by_cases h10 : n / 10 = 0
    · have hn : n < 10 := by omega
      rw [if_pos h10, natChars_lt n hn, Nat.mod_eq_of_lt hn]
      rfl
    · have hge : ¬n < 10 := by omega
      have hlt : n / 10 < fuel := by
        have hself : n / 10 < n := Nat.div_lt_self (by omega) (by norm_num)
        omega
      rw [if_neg h10, ih (n / 10) (Nat.digitChar (n % 10) :: acc) hlt,
        natChars_ge n hge, List.append_assoc]
      rfl

theorem toDigits_eq_natChars (n : Nat) : Nat.toDigits 10 n = natChars n := by
  have := toDigitsCore_eq_natChars (n + 1) n [] (by omega)
  simpa [Nat.toDigits] using this

/-- Value of a decimal digit character. -/
def charVal (c : Char) : Nat := c.toNat - 48

theorem charVal_digitChar : ∀ n, n < 10 → charVal (Nat.digitChar n) = n := by
  decide

theorem foldl_natChars (n : Nat) :
    ∀ a : Nat,
      List.foldl (fun a c => 10 * a + charVal c) a (natChars n) =
        a * 10 ^ (natChars n).length + n := by
  induction n using Nat.strong_induction_on with
  | _ n ih =>
    intro a
    by_cases h : n < 10
    · rw [natChars_lt n h]
      simp [charVal_digitChar n h]
      ring
    · rw [natChars_ge n h]
      have hdiv : n / 10 < n := Nat.div_lt_self (by omega) (by norm_num)
      rw [List.foldl_append, ih (n / 10) hdiv a]
      have hmod : n % 10 < 10 := Nat.mod_lt _ (by norm_num)
      simp only [List.foldl_cons, List.foldl_nil, List.length_append,
        List.length_singleton, charVal_digitChar _ hmod]
      rw [pow_succ]
      have hdm := Nat.div_add_mod n 10
      ring_nf
      omega

/-- Reading the digit string back recovers the number, so `natChars` is
injective. -/
theorem natChars_injective {a b : Nat} (h : natChars a = natChars b) : a = b := by
  have ha := foldl_natChars a 0
  have hb := foldl_natChars b 0
  rw [h] at ha
  simp only [Nat.zero_mul, Nat.zero_add] at ha hb
  omega

theorem natRepr_injective {a b : Nat} (h : Nat.repr a = Nat.repr b) : a = b := by
  apply natChars_injective
  have : (Nat.toDigits 10 a).asString = (Nat.toDigits 10 b).asString := h
  rw [toDigits_eq_natChars, toDigits_eq_natChars] at this
  have h2 : String.mk (natChars a) = String.mk (natChars b) := by
    simpa [List.asString] using this
  exact congrArg String.data h2

theorem string_append_left_cancel {a s1 s2 : String}
    (h : a ++ s1 = a ++ s2) : s1 = s2 := by
  have hd : (a ++ s1).data = (a ++ s2).data := congrArg String.data h
  simp only [String.data_append] at hd
  exact congrArg String.mk (List.append_cancel_left hd)

/-! ### Idempotency-store lemmas -/

theorem storeLookup_none_countKey {key : String} :
    ∀ {store : IdemStore}, storeLookup key store = none → countKey key store = 0
  | [], _ => rfl
  | (k, v) :: rest, h => by
    by_cases hk : k = key
    · simp [storeLookup, hk] at h
    · simp only [storeLookup, if_neg hk] at h
      simp [countKey, if_neg hk, storeLookup_none_countKey h]

theorem storeLookup_mem {key : String} {v : Submission} :
    ∀ {store : IdemStore}, storeLookup key store = some v → (key, v) ∈ store
  | [], h => by simp [storeLookup] at h
  | (k, w) :: rest, h => by
    by_cases hk : k = key
    · simp only [storeLookup, if_pos hk] at h
      subst hk
      cases h
      exact List.mem_cons_self _ _
    · simp only [storeLookup, if_neg hk] at h
      exact List.mem_cons_of_mem _ (storeLookup_mem h)

theorem countKey_storeSet_self (key : String) (s : Submission)
    (store : IdemStore) :
    countKey key (storeSet key s store) = countKey key store + 1 := by
  simp [storeSet, countKey]
  omega

theorem storeLookup_storeSet_other {key k : String} (h : k ≠ key)
    (s : Submission) (store : IdemStore) :
    storeLookup key (storeSet k s store) = storeLookup key store := by
  simp [storeSet, storeLookup, if_neg h]

theorem countKey_storeSet_other {key k : String} (h : k ≠ key)
    (s : Submission) (store : IdemStore) :
    countKey key (storeSet k s store) = countKey key store := by
  simp [storeSet, countKey, if_neg h]

/-! ### Case analysis of `submitToMockApi` -/

/-- Every call takes exactly one of three shapes: a cache hit (store and
delay untouched), a fresh success that commits one success record under the
key, or a fresh temporary failure that commits nothing. -/
theorem submitToMockApi_cases (f : FormData) (key : String) (d : AttemptDraw)
    (store : IdemStore) (cfg : MockApiConfig) :
    (∃ cached, storeLookup key store = some cached ∧
      submitToMockApi f key d store cfg =
        { response :=
            { success := cached.status = Status.success
              data := some cached
              error := if cached.status = Status.error then cached.errorMessage
                       else none }
          store := store
          delay := 0 }) ∨
    (storeLookup key store = none ∧
      ((∃ s, s.status = Status.success ∧
          (submitToMockApi f key d store cfg).response =
            { success := true, data := some s, error := none } ∧
          (submitToMockApi f key d store cfg).store = storeSet key s store) ∨
        ((submitToMockApi f key d store cfg).response =
            { success := false, data := none
              error := some "Service temporarily unavailable" } ∧
          (submitToMockApi f key d store cfg).store = store))) := by
  cases hl : storeLookup key store with
  | some cached =>
      left
      refine ⟨cached, rfl, ?_⟩
      simp only [submitToMockApi, hl]
  | none =>
      right
      refine ⟨rfl, ?_⟩
      simp only [submitToMockApi, hl]
      split_ifs with h1 h2
      · exact Or.inl ⟨_, rfl, rfl, rfl⟩
      · exact Or.inr ⟨rfl, rfl⟩
      · exact Or.inl ⟨_, rfl, rfl, rfl⟩

/-- A failing response never changes the store. -/
theorem submitToMockApi_fail_store {f key d store cfg}
    (h : (submitToMockApi f key d store cfg).response.success = false) :
    (submitToMockApi f key d store cfg).store = store := by
  rcases submitToMockApi_cases f key d store cfg with
    ⟨cached, _, heq⟩ | ⟨_, ⟨s, _, hresp, _⟩ | ⟨_, hstore⟩⟩
  · rw [heq]
  · rw [hresp] at h
    simp at h
  · exact hstore

/-- A successful response always carries a data record. -/
theorem submitToMockApi_success_data {f key d store cfg}
    (h : (submitToMockApi f key d store cfg).response.success = true) :
    ∃ s, (submitToMockApi f key d store cfg).response.data = some s := by
  rcases submitToMockApi_cases f key d store cfg with
    ⟨cached, _, heq⟩ | ⟨_, ⟨s, _, hresp, _⟩ | ⟨hresp, _⟩⟩
  · rw [heq]
    exact ⟨cached, rfl⟩
  · rw [hresp]
    exact ⟨s, rfl⟩
  · rw [hresp] at h
    simp at h

/-- A successful response on a fresh key commits exactly the returned
success record under that key. -/
theorem submitToMockApi_success_fresh {f key d store cfg}
    (hfresh : storeLookup key store = none)
    (h : (submitToMockApi f key d store cfg).response.success = true) :
    ∃ s, s.status = Status.success ∧
      (submitToMockApi f key d store cfg).response.data = some s ∧
      (submitToMockApi f key d store cfg).store = storeSet key s store := by
  rcases submitToMockApi_cases f key d store cfg with
    ⟨cached, hsome, _⟩ | ⟨_, ⟨s, hs, hresp, hstore⟩ | ⟨hresp, _⟩⟩
  · rw [hfresh] at hsome
    cases hsome
  · exact ⟨s, hs, by rw [hresp], hstore⟩
  · rw [hresp] at h
    simp at h

/-! ### Sequences of endpoint calls -/

/-- The arguments of one `submitToMockApi` invocation, for reasoning about
arbitrary call sequences against the shared module-level store. -/
structure CallInput where
  formData : FormData
  key : String
  draw : AttemptDraw
  cfg : MockApiConfig

/-- The store left behind by a sequence of `submitToMockApi` calls. -/
def runCalls (calls : List CallInput) (store : IdemStore) : IdemStore :=
  match calls with
  | [] => store
  | c :: rest =>
      runCalls rest (submitToMockApi c.formData c.key c.draw store c.cfg).store

theorem runCalls_append (a b : List CallInput) :
    ∀ store, runCalls (a ++ b) store = runCalls b (runCalls a store) := by
  induction a with
  | nil => intro store; rfl
  | cons c rest ih => intro store; exact ih _

/-- One call preserves "every stored record is a success record". -/
theorem step_allSuccess {f : FormData} {key : String} {d : AttemptDraw}
    {store : IdemStore} {cfg : MockApiConfig}
    (h : ∀ p ∈ store, (p : String × Submission).2.status = Status.success) :
    ∀ p ∈ (submitToMockApi f key d store cfg).store,
      (p : String × Submission).2.status = Status.success := by
  rcases submitToMockApi_cases f key d store cfg with
    ⟨cached, _, heq⟩ | ⟨_, ⟨s, hs, _, hstore⟩ | ⟨_, hstore⟩⟩
  · rw [heq]; exact h
  · rw [hstore]
    intro p hp
    rcases List.mem_cons.mp hp with rfl | hp
    · exact hs
    · exact h p hp
  · rw [hstore]; exact h

/-- One call preserves any already-stored binding. -/
theorem step_lookup_some {f : FormData} {key : String} {d : AttemptDraw}
    {store : IdemStore} {cfg : MockApiConfig} {k : String} {v : Submission}
    (h : storeLookup k store = some v) :
    storeLookup k (submitToMockApi f key d store cfg).store = some v := by
  rcases submitToMockApi_cases f key d store cfg with
    ⟨cached, _, heq⟩ | ⟨hfresh, ⟨s, _, _, hstore⟩ | ⟨_, hstore⟩⟩
  · rw [heq]; exact h
  · rw [hstore]
    have hne : key ≠ k := by
      intro he
      rw [he, h] at hfresh
      cases hfresh
    rw [storeLookup_storeSet_other hne]
    exact h
  · rw [hstore]; exact h

/-- One call keeps the record count of every key at most one. -/
theorem step_countKey {f : FormData} {key : String} {d : AttemptDraw}
    {store : IdemStore} {cfg : MockApiConfig} (k : String)
    (h : countKey k store ≤ 1) :
    countKey k (submitToMockApi f key d store cfg).store ≤ 1 := by
  rcases submitToMockApi_cases f key d store cfg with
    ⟨cached, _, heq⟩ | ⟨hfresh, ⟨s, _, _, hstore⟩ | ⟨_, hstore⟩⟩
  · rw [heq]; exact h
  · rw [hstore]
    by_cases hk : key = k
    · subst hk
      rw [countKey_storeSet_self, storeLookup_none_countKey hfresh]
    · rw [countKey_storeSet_other hk]
      exact h
  · rw [hstore]; exact h

theorem runCalls_allSuccess (calls : List CallInput) :
    ∀ store, (∀ p ∈ store, (p : String × Submission).2.status = Status.success) →
      ∀ p ∈ runCalls calls store,
        (p : String × Submission).2.status = Status.success := by
  induction calls with
  | nil => intro store h; exact h
  | cons c rest ih => intro store h; exact ih _ (step_allSuccess h)

theorem runCalls_countKey (calls : List CallInput) (k : String) :
    ∀ store, countKey k store ≤ 1 → countKey k (runCalls calls store) ≤ 1 := by
  induction calls with
  | nil => intro store h; exact h
  | cons c rest ih => intro store h; exact ih _ (step_countKey k h)

theorem runCalls_lookup_some (calls : List CallInput) (k : String)
    (v : Submission) :
    ∀ store, storeLookup k store = some v →
      storeLookup k (runCalls calls store) = some v := by
  induction calls with
  | nil => intro store h; exact h
  | cons c rest ih => intro store h; exact ih _ (step_lookup_some h)

/-! ### Retry-loop lemmas -/

theorem submitLoopAux_calls_le (f : FormData) (key : String) (p : Submission)
    (draws : Nat → AttemptDraw) (cfg : MockApiConfig) :
    ∀ (fuel retryCount : Nat) (st : HookState) (calls : Nat)
      (snaps : List Submission),
      (submitLoopAux f key p draws cfg fuel retryCount st
          calls snaps).endpointCalls ≤ calls + fuel := by
  intro fuel
  induction fuel with
  | zero =>
    intro rc st calls snaps
    simp [submitLoopAux]
  | succ fuel ih =>
    intro rc st calls snaps
    simp only [submitLoopAux]
    split
    · split
      · simp only [successExit]
        omega
      · split
        · exact le_trans (ih _ _ _ _) (by omega)
        · simp only [failExit]
          omega
    · simp only
      omega

theorem submitLoopAux_terminates (f : FormData) (key : String) (p : Submission)
    (draws : Nat → AttemptDraw) (cfg : MockApiConfig) :
    ∀ (fuel retryCount : Nat) (st : HookState) (calls : Nat)
      (snaps : List Submission),
      retryCount + fuel = MAX_RETRIES + 1 → retryCount ≤ MAX_RETRIES →
      (submitLoopAux f key p draws cfg fuel retryCount st
          calls snaps).outcome ≠ SubmitOutcome.fellThrough := by
  intro fuel
  induction fuel with
  | zero =>
    intro rc st calls snaps h1 h2
    omega
  | succ fuel ih =>
    intro rc st calls snaps h1 h2
    simp only [submitLoopAux]
    rw [if_pos h2]
    split
    · simp [successExit]
    · split
      · next hlt =>
          exact ih _ _ _ _ (by omega) (by omega)
      · simp [failExit]

/-- One loop iteration on a successful response exits through
`successExit`. -/
theorem submitLoopAux_step_success (f : FormData) (key : String)
    (p : Submission) (draws : Nat → AttemptDraw) (cfg : MockApiConfig)
    (fuel c : Nat) (st : HookState) (calls : Nat) (snaps : List Submission)
    (d : Submission) (h2 : c ≤ MAX_RETRIES)
    (hsucc : (submitToMockApi f key (draws c) st.store
        cfg).response.success = true)
    (hdata : (submitToMockApi f key (draws c) st.store cfg).response.data
        = some d) :
    submitLoopAux f key p draws cfg (fuel + 1) c st calls snaps =
      successExit c (calls + 1) snaps
        { st with store := (submitToMockApi f key (draws c) st.store
            cfg).store } d := by
  simp only [submitLoopAux]
  rw [if_pos h2, hsucc, hdata]

/-- One loop iteration on a failing response either recurses with a retry
snapshot or exits through `failExit`, depending on the remaining budget. -/
theorem submitLoopAux_step_fail (f : FormData) (key : String) (p : Submission)
    (draws : Nat → AttemptDraw) (cfg : MockApiConfig) (fuel c : Nat)
    (st : HookState) (calls : Nat) (snaps : List Submission)
    (h2 : c ≤ MAX_RETRIES)
    (hfailc : (submitToMockApi f key (draws c) st.store
        cfg).response.success = false) :
    submitLoopAux f key p draws cfg (fuel + 1) c st calls snaps =
      (if c < MAX_RETRIES then
        submitLoopAux f key p draws cfg fuel (c + 1)
          { st with
            store := (submitToMockApi f key (draws c) st.store cfg).store
            currentSubmission := some
              { p with
                status := Status.retry
                retryCount := c + 1
                errorMessage := some ("Failed: "
                  ++ ((submitToMockApi f key (draws c) st.store
                        cfg).response.error.getD "Unknown error occurred")
                  ++ ". Retrying...") } }
          (calls + 1)
          ({ p with
              status := Status.retry
              retryCount := c + 1
              errorMessage := some ("Failed: "
                ++ ((submitToMockApi f key (draws c) st.store
                      cfg).response.error.getD "Unknown error occurred")
                ++ ". Retrying...") } :: snaps)
      else
        failExit p c (calls + 1) snaps
          { st with
            store := (submitToMockApi f key (draws c) st.store cfg).store }
          ((submitToMockApi f key (draws c) st.store cfg).response.error.getD
            "Unknown error occurred")) := by
  simp only [submitLoopAux]
  rw [if_pos h2, hfailc]

/-- If every endpoint attempt from `c` through `MAX_RETRIES` fails, the loop
exits through `failExit` with the budget-naming message, the store untouched,
the in-flight token cleared and the submitting flag lowered. -/
theorem submitLoopAux_all_fail (f : FormData) (key : String) (p : Submission)
    (draws : Nat → AttemptDraw) (cfg : MockApiConfig) :
    ∀ (fuel c : Nat) (st : HookState) (calls : Nat) (snaps : List Submission)
      (s0 : IdemStore), st.store = s0 →
      c + fuel = MAX_RETRIES + 1 → c ≤ MAX_RETRIES →
      (∀ i, c ≤ i → i ≤ MAX_RETRIES →
        (submitToMockApi f key (draws i) s0 cfg).response.success = false) →
      (submitLoopAux f key p draws cfg fuel c st calls snaps).outcome =
        SubmitOutcome.failed
          { p with
            status := Status.error
            retryCount := MAX_RETRIES
            errorMessage :=
              some ("Failed after " ++ toString MAX_RETRIES ++ " retries: "
                ++ ((submitToMockApi f key (draws MAX_RETRIES) s0
                      cfg).response.error.getD "Unknown error occurred")) } ∧
      (submitLoopAux f key p draws cfg fuel c st calls snaps).state.store = s0 ∧
      (submitLoopAux f key p draws cfg fuel c st calls snaps).state.inFlight
        = none ∧
      (submitLoopAux f key p draws cfg fuel c st calls
          snaps).state.isSubmitting = false ∧
      (submitLoopAux f key p draws cfg fuel c st calls snaps).state.error =
        some ("Submission failed: "
          ++ ((submitToMockApi f key (draws MAX_RETRIES) s0
                cfg).response.error.getD "Unknown error occurred")) := by
  intro fuel
  induction fuel with
  | zero =>
    intro c st calls snaps s0 hs h1 h2 hfail
    omega
  | succ fuel ih =>
    intro c st calls snaps s0 hs h1 h2 hfail
    have hfailc : (submitToMockApi f key (draws c) st.store
        cfg).response.success = false := by
      rw [hs]; exact hfail c le_rfl h2
    have hstorec : (submitToMockApi f key (draws c) s0 cfg).store = s0 :=
      submitToMockApi_fail_store (hfail c le_rfl h2)
    rw [submitLoopAux_step_fail f key p draws cfg fuel c st calls snaps h2
      hfailc]
    by_cases hlt : c < MAX_RETRIES
    · rw [if_pos hlt]
      apply ih
      · show (submitToMockApi f key (draws c) st.store cfg).store = s0
        rw [hs]
        exact hstorec
      · omega
      · omega
      · exact fun i h1i h2i => hfail i (by omega) h2i
    · rw [if_neg hlt]
      have hc : c = MAX_RETRIES := by omega
      subst hc
      rw [hs]
      simp [failExit, hstorec]

/-- If attempts `c .. c+k-1` fail and attempt `c+k` succeeds (within the
budget), the loop exits through `successExit` with retry count `c + k`, the
store as the successful call left it, the in-flight token cleared and the
submitting flag lowered. -/
theorem submitLoopAux_success_after (f : FormData) (key : String)
    (p : Submission) (draws : Nat → AttemptDraw) (cfg : MockApiConfig) :
    ∀ (k fuel c : Nat) (st : HookState) (calls : Nat) (snaps : List Submission)
      (s0 : IdemStore), st.store = s0 →
      c + k ≤ MAX_RETRIES → k < fuel →
      (∀ i, i < k →
        (submitToMockApi f key (draws (c + i)) s0 cfg).response.success
          = false) →
      (submitToMockApi f key (draws (c + k)) s0 cfg).response.success = true →
      ∀ d, (submitToMockApi f key (draws (c + k)) s0 cfg).response.data
          = some d →
      (submitLoopAux f key p draws cfg fuel c st calls snaps).outcome =
        SubmitOutcome.succeeded
          { d with retryCount := c + k, status := Status.success } ∧
      (submitLoopAux f key p draws cfg fuel c st calls snaps).state.store =
        (submitToMockApi f key (draws (c + k)) s0 cfg).store ∧
      (submitLoopAux f key p draws cfg fuel c st calls snaps).state.inFlight
        = none ∧
      (submitLoopAux f key p draws cfg fuel c st calls
          snaps).state.isSubmitting = false := by
  intro k
  induction k with
  | zero =>
    intro fuel c st calls snaps s0 hs hck hfuel hfail hsucc d hd
    obtain ⟨fuel, rfl⟩ : ∃ n, fuel = n + 1 := ⟨fuel - 1, by omega⟩
    rw [Nat.add_zero] at hsucc hd
    rw [submitLoopAux_step_success f key p draws cfg fuel c st calls snaps d
      (by omega) (by rw [hs]; exact hsucc) (by rw [hs]; exact hd)]
    simp [successExit, hs]
  | succ k ih =>
    intro fuel c st calls snaps s0 hs hck hfuel hfail hsucc d hd
    obtain ⟨fuel, rfl⟩ : ∃ n, fuel = n + 1 := ⟨fuel - 1, by omega⟩
    have hfail0 : (submitToMockApi f key (draws c) s0 cfg).response.success
        = false := by
      have h0 := hfail 0 (by omega)
      rwa [Nat.add_zero] at h0
    have hstore0 : (submitToMockApi f key (draws c) s0 cfg).store = s0 :=
      submitToMockApi_fail_store hfail0
    rw [submitLoopAux_step_fail f key p draws cfg fuel c st calls snaps
      (by omega) (by rw [hs]; exact hfail0)]
    rw [if_pos (by omega : c < MAX_RETRIES)]
    rw [show c + (k + 1) = c + 1 + k from by omega]
    refine ih fuel (c + 1) _ (calls + 1) _ s0 ?_ (by omega) (by omega) ?_ ?_ d
      ?_
    · show (submitToMockApi f key (draws c) st.store cfg).store = s0
      rw [hs]
      exact hstore0
    · intro i hi
      rw [show c + 1 + i = c + (i + 1) from by omega]
      exact hfail (i + 1) (by omega)
    · rw [show c + 1 + k = c + (k + 1) from by omega]
      exact hsucc
    · rw [show c + 1 + k = c + (k + 1) from by omega]
      exact hd

/-! ### Unfolding `submit` -/

/-- The pending snapshot `submit` creates before entering the loop. -/
def pendingOf (f : FormData) (ts : Nat) (suffix : String) : Submission :=
  { email := f.email
    amount := f.amount
    id := toString ts ++ "-" ++ suffix
    timestamp := ts
    status := Status.pending
    retryCount := 0
    errorMessage := none }

/-- Running `submit` with a matching in-flight token short-circuits: only the error
cell changes, nothing else is touched. -/
theorem submit_busy (st : HookState) (f : FormData) (ts : Nat)
    (suffix : String) (draws : Nat → AttemptDraw) (cfg : MockApiConfig)
    (h : st.inFlight = some (dedupeToken f)) :
    submit st f ts suffix draws cfg =
      { state :=
          { st with error := some "Request already in progress. Please wait." }
        outcome := SubmitOutcome.alreadyInProgress
        endpointCalls := 0
        snapshots := [] } := by
  simp only [submit]
  rw [if_pos h]

/-- Running `submit` with no matching in-flight token enters the retry loop with
attempt 0, full fuel, and the prepared pending snapshot. -/
theorem submit_eq_loop (st : HookState) (f : FormData) (ts : Nat)
    (suffix : String) (draws : Nat → AttemptDraw) (cfg : MockApiConfig)
    (h : ¬st.inFlight = some (dedupeToken f)) :
    submit st f ts suffix draws cfg =
      submitLoopAux f (generateIdempotencyKey f.email ts)
        (pendingOf f ts suffix) draws cfg (MAX_RETRIES + 1) 0
        { st with
          isSubmitting := true
          error := none
          inFlight := some (dedupeToken f)
          currentSubmission := some (pendingOf f ts suffix) }
        0 [pendingOf f ts suffix] := by
  simp only [submit]
  rw [if_neg h]
  rfl

/-! ### Concrete rate facts for the default configuration -/

theorem succRate_not_le_fifth :
    ¬(DEFAULT_CONFIG.successRate ≤ (5 : Rat)⁻¹) := by
  norm_num [DEFAULT_CONFIG]

theorem fifth_lt_band :
    (5 : Rat)⁻¹ < DEFAULT_CONFIG.successRate + DEFAULT_CONFIG.failureRate := by
  norm_num [DEFAULT_CONFIG]

theorem band_not_le_half :
    ¬(DEFAULT_CONFIG.successRate + DEFAULT_CONFIG.failureRate
      ≤ (2 : Rat)⁻¹) := by
  norm_num [DEFAULT_CONFIG]

theorem half_band :
    (2 : Rat)⁻¹ < DEFAULT_CONFIG.successRate + DEFAULT_CONFIG.failureRate := by
  norm_num [DEFAULT_CONFIG]

theorem succRate_le_nine : DEFAULT_CONFIG.successRate ≤ (9 : Rat) / 10 := by
  norm_num [DEFAULT_CONFIG]

theorem band_le_nine :
    DEFAULT_CONFIG.successRate + DEFAULT_CONFIG.failureRate
      ≤ (9 : Rat) / 10 := by
  norm_num [DEFAULT_CONFIG]

/-- Shared concrete inputs for the witness theorems. -/
def fdW : FormData := { email := "a@x.com", amount := 50 }

/-- A draw in the temporary-failure band of the default configuration. -/
def drawFail : AttemptDraw :=
  { random := 1/2, idSuffix := "r", now := 0, delayDraw := 0 }

/-- A draw in the delayed-success band of the default configuration. -/
def drawDelay : AttemptDraw :=
  { random := 9/10, idSuffix := "r", now := 0, delayDraw := 0 }

/-- The empty hook state. -/
def st0 : HookState :=
  { submissions := []
    isSubmitting := false
    error := none
    currentSubmission := none
    inFlight := none
    store := [] }

/-- The success record the delayed-success draw commits. -/
def subW : Submission :=
  { email := "a@x.com"
    amount := 50
    id := toString (0 : Nat) ++ "-" ++ "r"
    timestamp := 0
    status := Status.success
    retryCount := 0
    errorMessage := none }

/-! ### The claims -/

/-- Claim C1.  The claim says a draw below `successRate` yields an immediate
success.  The code contradicts it (and its own doc comment announcing a 40%
immediate-success arm): because `isFailure` is `random < successRate +
failureRate` rather than a band check, and the failure branch is tested
before the plain-success branch, a fresh-key call with draw `1/5 <
successRate` under the default configuration returns the 503-style
temporary-failure response, with no delay and nothing committed.  The
immediate-success arm is unreachable. -/
theorem claim_C1_low_draw_fails :
    (1 : Rat) / 5 < DEFAULT_CONFIG.successRate ∧
    submitToMockApi fdW "a@x.com:0"
        { random := 1/5, idSuffix := "r", now := 0, delayDraw := 0 } []
        DEFAULT_CONFIG =
      { response :=
          { success := false
            data := none
            error := some "Service temporarily unavailable" }
        store := []
        delay := 0 } := by
  constructor
  · norm_num [DEFAULT_CONFIG]
  · simp [submitToMockApi, storeLookup, succRate_not_le_fifth, fifth_lt_band]

/-- Claim C2: a call whose idempotency key is already stored returns the
outcome of the cached record, the store is left unchanged, no delay is consumed,
and the result is independent of the draw. -/
theorem claim_C2_cached_short_circuit (f : FormData) (key : String)
    (d1 d2 : AttemptDraw) (store : IdemStore) (cfg : MockApiConfig)
    (cached : Submission) (h : storeLookup key store = some cached) :
    submitToMockApi f key d1 store cfg =
      { response :=
          { success := cached.status = Status.success
            data := some cached
            error := if cached.status = Status.error then cached.errorMessage
                     else none }
        store := store
        delay := 0 } ∧
    submitToMockApi f key d1 store cfg = submitToMockApi f key d2 store cfg := by
  constructor
  · simp only [submitToMockApi, h]
  · simp only [submitToMockApi, h]

theorem claim_C2_witness :
    storeLookup "k" [("k", subW)] = some subW ∧
    (submitToMockApi fdW "k" drawFail [("k", subW)] DEFAULT_CONFIG =
        { response :=
            { success := subW.status = Status.success
              data := some subW
              error := if subW.status = Status.error then subW.errorMessage
                       else none }
          store := [("k", subW)]
          delay := 0 } ∧
      submitToMockApi fdW "k" drawFail [("k", subW)] DEFAULT_CONFIG =
        submitToMockApi fdW "k" drawDelay [("k", subW)] DEFAULT_CONFIG) :=
  ⟨rfl, claim_C2_cached_short_circuit fdW "k" drawFail drawDelay
    [("k", subW)] DEFAULT_CONFIG subW rfl⟩

/-- Claim C3: a store reachable by any sequence of calls from the empty
initial store holds success records only, and a fresh-key call whose
response is a failure returns the 503-style error response and commits
nothing. -/
theorem claim_C3_success_only_commits (calls : List CallInput) (f : FormData)
    (key : String) (d : AttemptDraw) (store : IdemStore)
    (cfg : MockApiConfig) :
    (∀ p ∈ runCalls calls [],
      (p : String × Submission).2.status = Status.success) ∧
    (storeLookup key store = none →
      (submitToMockApi f key d store cfg).response.success = false →
      (submitToMockApi f key d store cfg).response =
        { success := false
          data := none
          error := some "Service temporarily unavailable" } ∧
      (submitToMockApi f key d store cfg).store = store) := by
  constructor
  · exact runCalls_allSuccess calls [] (by simp)
  · intro hfresh hfailresp
    rcases submitToMockApi_cases f key d store cfg with
      ⟨cached, hsome, _⟩ | ⟨_, ⟨s, _, hresp, _⟩ | ⟨hresp, hstore⟩⟩
    · rw [hfresh] at hsome
      cases hsome
    · rw [hresp] at hfailresp
      simp at hfailresp
    · exact ⟨hresp, hstore⟩

theorem claim_C3_witness :
    storeLookup "k" ([] : IdemStore) = none ∧
    (submitToMockApi fdW "k" drawFail [] DEFAULT_CONFIG).response.success
      = false ∧
    ((∀ p ∈ runCalls [] [],
        (p : String × Submission).2.status = Status.success) ∧
      ((submitToMockApi fdW "k" drawFail [] DEFAULT_CONFIG).response =
          { success := false
            data := none
            error := some "Service temporarily unavailable" } ∧
        (submitToMockApi fdW "k" drawFail [] DEFAULT_CONFIG).store = [])) := by
  refine ⟨rfl, ?_, ?_⟩
  · simp [submitToMockApi, storeLookup, drawFail, band_not_le_half, half_band]
  · exact ⟨(claim_C3_success_only_commits [] fdW "k" drawFail []
      DEFAULT_CONFIG).1,
      (claim_C3_success_only_commits [] fdW "k" drawFail []
        DEFAULT_CONFIG).2 rfl
        (by simp [submitToMockApi, storeLookup, drawFail, band_not_le_half,
          half_band])⟩

/-- Claim C4: after any sequence of calls from the empty initial store, each
key holds at most one record, and a stored binding survives any further
sequence of calls unchanged. -/
theorem claim_C4_no_overwrite (calls more : List CallInput) (k : String)
    (v : Submission) :
    countKey k (runCalls calls []) ≤ 1 ∧
    (storeLookup k (runCalls calls []) = some v →
      storeLookup k (runCalls (calls ++ more) []) = some v) := by
  constructor
  · exact runCalls_countKey calls k [] (by simp [countKey])
  · intro h
    rw [runCalls_append]
    exact runCalls_lookup_some more k v _ h

/-- Claim C10: because reachable stores hold success records only, the
error arm of the cached-response construction is unreachable: a cache hit
always reports success with no error. -/
theorem claim_C10_cached_is_success (f : FormData) (key : String)
    (d : AttemptDraw) (store : IdemStore) (cfg : MockApiConfig)
    (cached : Submission)
    (hall : ∀ p ∈ store, (p : String × Submission).2.status = Status.success)
    (h : storeLookup key store = some cached) :
    (submitToMockApi f key d store cfg).response.success = true ∧
    (submitToMockApi f key d store cfg).response.error = none := by
  have hc : cached.status = Status.success := hall _ (storeLookup_mem h)
  constructor
  · simp only [submitToMockApi, h]
    simp [hc]
  · simp only [submitToMockApi, h]
    simp [hc]

theorem claim_C10_witness :
    (∀ p ∈ [("k", subW)],
      (p : String × Submission).2.status = Status.success) ∧
    storeLookup "k" [("k", subW)] = some subW ∧
    ((submitToMockApi fdW "k" drawFail [("k", subW)]
        DEFAULT_CONFIG).response.success = true ∧
      (submitToMockApi fdW "k" drawFail [("k", subW)]
        DEFAULT_CONFIG).response.error = none) :=
  ⟨by decide, rfl,
    claim_C10_cached_is_success fdW "k" drawFail [("k", subW)] DEFAULT_CONFIG
      subW (by decide) rfl⟩

/-- Claim C5: the derived key is `identity ++ ":" ++ toString (floor(t/1000)
* 1000)`; calls in the same second collapse to one key, and calls at least
one second apart get distinct keys. -/
theorem claim_C5_key_rounding (email : String) (t1 t2 : Nat) :
    generateIdempotencyKey email t1
      = email ++ ":" ++ toString (t1 / 1000 * 1000) ∧
    (t1 / 1000 = t2 / 1000 →
      generateIdempotencyKey email t1 = generateIdempotencyKey email t2) ∧
    (t1 + 1000 ≤ t2 →
      generateIdempotencyKey email t1 ≠ generateIdempotencyKey email t2) := by
  refine ⟨rfl, ?_, ?_⟩
  · intro h
    simp only [generateIdempotencyKey, h]
  · intro h heq
    simp only [generateIdempotencyKey] at heq
    have h2 : toString (t1 / 1000 * 1000) = toString (t2 / 1000 * 1000) :=
      string_append_left_cancel heq
    have h3 : Nat.repr (t1 / 1000 * 1000) = Nat.repr (t2 / 1000 * 1000) := h2
    have h4 := natRepr_injective h3
    omega

theorem claim_C5_witness :
    (500 / 1000 = 700 / 1000 ∧
      generateIdempotencyKey "a@x.com" 500
        = generateIdempotencyKey "a@x.com" 700) ∧
    (500 + 1000 ≤ 1500 ∧
      generateIdempotencyKey "a@x.com" 500
        ≠ generateIdempotencyKey "a@x.com" 1500) :=
  ⟨⟨rfl, (claim_C5_key_rounding "a@x.com" 500 700).2.1 rfl⟩,
    ⟨by decide, (claim_C5_key_rounding "a@x.com" 500 1500).2.2 (by decide)⟩⟩

/-- The single endpoint call used by the C4 witness. -/
def callW : CallInput :=
  { formData := fdW, key := "k", draw := drawDelay, cfg := DEFAULT_CONFIG }

theorem claim_C4_witness :
    storeLookup "k" (runCalls [callW] []) = some subW ∧
    (countKey "k" (runCalls [callW] []) ≤ 1 ∧
      storeLookup "k" (runCalls ([callW] ++ []) []) = some subW) := by
  have h : storeLookup "k" (runCalls [callW] []) = some subW := by
    simp [runCalls, callW, submitToMockApi, storeLookup, drawDelay, fdW,
      subW, storeSet, succRate_le_nine, band_le_nine]
  exact ⟨h, (claim_C4_no_overwrite [callW] [] "k" subW).1,
    (claim_C4_no_overwrite [callW] [] "k" subW).2 h⟩

/-- Claim C6: every `submit` invocation ends in one of the defined exits
(the while loop never falls through) and calls the endpoint at most
`MAX_RETRIES + 1 = 4` times. -/
theorem claim_C6_bounded_retries (st : HookState) (f : FormData) (ts : Nat)
    (suffix : String) (draws : Nat → AttemptDraw) (cfg : MockApiConfig) :
    (submit st f ts suffix draws cfg).outcome ≠ SubmitOutcome.fellThrough ∧
    (submit st f ts suffix draws cfg).endpointCalls ≤ MAX_RETRIES + 1 ∧
    MAX_RETRIES = 3 := by
  by_cases h : st.inFlight = some (dedupeToken f)
  · rw [submit_busy st f ts suffix draws cfg h]
    exact ⟨by simp, by simp, rfl⟩
  · rw [submit_eq_loop st f ts suffix draws cfg h]
    refine ⟨?_, ?_, rfl⟩
    · exact submitLoopAux_terminates f (generateIdempotencyKey f.email ts)
        (pendingOf f ts suffix) draws cfg (MAX_RETRIES + 1) 0
        { st with
          isSubmitting := true
          error := none
          inFlight := some (dedupeToken f)
          currentSubmission := some (pendingOf f ts suffix) }
        0 [pendingOf f ts suffix] (by omega) (by omega)
    · have hle := submitLoopAux_calls_le f
        (generateIdempotencyKey f.email ts) (pendingOf f ts suffix) draws cfg
        (MAX_RETRIES + 1) 0
        { st with
          isSubmitting := true
          error := none
          inFlight := some (dedupeToken f)
          currentSubmission := some (pendingOf f ts suffix) }
        0 [pendingOf f ts suffix]
      omega

/-- Claim C7: if the endpoint fails on attempts `0..k-1` and succeeds on
attempt `k ≤ MAX_RETRIES` (for a fresh idempotency key), `submit` ends
`Succeeded` with retry count `k` and the store holds exactly one record for
that key. -/
theorem claim_C7_success_at_k (st : HookState) (f : FormData) (ts : Nat)
    (suffix : String) (draws : Nat → AttemptDraw) (cfg : MockApiConfig)
    (k : Nat) (hbusy : ¬st.inFlight = some (dedupeToken f))
    (hk : k ≤ MAX_RETRIES)
    (hfresh : storeLookup (generateIdempotencyKey f.email ts) st.store = none)
    (hfail : ∀ i, i < k →
      (submitToMockApi f (generateIdempotencyKey f.email ts) (draws i)
        st.store cfg).response.success = false)
    (hsucc : (submitToMockApi f (generateIdempotencyKey f.email ts) (draws k)
        st.store cfg).response.success = true) :
    (∃ d, (submit st f ts suffix draws cfg).outcome
        = SubmitOutcome.succeeded d ∧
      d.retryCount = k ∧ d.status = Status.success) ∧
    countKey (generateIdempotencyKey f.email ts)
      (submit st f ts suffix draws cfg).state.store = 1 := by
  obtain ⟨s, hs_status, hdata, hstore⟩ :=
    submitToMockApi_success_fresh hfresh hsucc
  rw [submit_eq_loop st f ts suffix draws cfg hbusy]
  have hmain := submitLoopAux_success_after f
    (generateIdempotencyKey f.email ts) (pendingOf f ts suffix) draws cfg
    k (MAX_RETRIES + 1) 0
    { st with
      isSubmitting := true
      error := none
      inFlight := some (dedupeToken f)
      currentSubmission := some (pendingOf f ts suffix) }
    0 [pendingOf f ts suffix] st.store rfl (by omega) (by omega)
    (fun i hi => by rw [Nat.zero_add]; exact hfail i hi)
    (by rw [Nat.zero_add]; exact hsucc) s
    (by rw [Nat.zero_add]; exact hdata)
  rw [Nat.zero_add] at hmain
  obtain ⟨hout, hst, _, _⟩ := hmain
  refine ⟨⟨_, hout, rfl, rfl⟩, ?_⟩
  rw [hst, hstore, countKey_storeSet_self, storeLookup_none_countKey hfresh]

theorem claim_C7_witness :
    ¬st0.inFlight = some (dedupeToken fdW) ∧
    0 ≤ MAX_RETRIES ∧
    storeLookup (generateIdempotencyKey fdW.email 0) st0.store = none ∧
    (submitToMockApi fdW (generateIdempotencyKey fdW.email 0)
      ((fun _ => drawDelay) 0) st0.store DEFAULT_CONFIG).response.success
        = true ∧
    ((∃ d, (submit st0 fdW 0 "r" (fun _ => drawDelay)
          DEFAULT_CONFIG).outcome = SubmitOutcome.succeeded d ∧
        d.retryCount = 0 ∧ d.status = Status.success) ∧
      countKey (generateIdempotencyKey fdW.email 0)
        (submit st0 fdW 0 "r" (fun _ => drawDelay)
          DEFAULT_CONFIG).state.store = 1) := by
  refine ⟨by simp [st0], by decide, rfl, ?_, ?_⟩
  · simp [submitToMockApi, storeLookup, drawDelay, st0, succRate_le_nine,
      band_le_nine]
  · exact claim_C7_success_at_k st0 fdW 0 "r" (fun _ => drawDelay)
      DEFAULT_CONFIG 0 (by simp [st0]) (by decide) rfl
      (fun i hi => absurd hi (Nat.not_lt_zero i))
      (by simp [submitToMockApi, storeLookup, drawDelay, st0,
        succRate_le_nine, band_le_nine])

/-- Claim C8: if the endpoint fails on every attempt through `MAX_RETRIES`,
`submit` ends `Failed` with a message naming the retry budget and the last
detail of the last failure, clears the in-flight token, and commits nothing: the store
is exactly as before. -/
theorem claim_C8_all_attempts_fail (st : HookState) (f : FormData) (ts : Nat)
    (suffix : String) (draws : Nat → AttemptDraw) (cfg : MockApiConfig)
    (hbusy : ¬st.inFlight = some (dedupeToken f))
    (hfail : ∀ i, i ≤ MAX_RETRIES →
      (submitToMockApi f (generateIdempotencyKey f.email ts) (draws i)
        st.store cfg).response.success = false) :
    (submit st f ts suffix draws cfg).outcome =
      SubmitOutcome.failed
        { pendingOf f ts suffix with
          status := Status.error
          retryCount := MAX_RETRIES
          errorMessage := some ("Failed after " ++ toString MAX_RETRIES
            ++ " retries: "
            ++ ((submitToMockApi f (generateIdempotencyKey f.email ts)
                  (draws MAX_RETRIES) st.store cfg).response.error.getD
                "Unknown error occurred")) } ∧
    (submit st f ts suffix draws cfg).state.store = st.store ∧
    (submit st f ts suffix draws cfg).state.inFlight = none ∧
    (submit st f ts suffix draws cfg).state.isSubmitting = false ∧
    (submit st f ts suffix draws cfg).state.error =
      some ("Submission failed: "
        ++ ((submitToMockApi f (generateIdempotencyKey f.email ts)
              (draws MAX_RETRIES) st.store cfg).response.error.getD
            "Unknown error occurred")) := by
  rw [submit_eq_loop st f ts suffix draws cfg hbusy]
  exact submitLoopAux_all_fail f (generateIdempotencyKey f.email ts)
    (pendingOf f ts suffix) draws cfg (MAX_RETRIES + 1) 0
    { st with
      isSubmitting := true
      error := none
      inFlight := some (dedupeToken f)
      currentSubmission := some (pendingOf f ts suffix) }
    0 [pendingOf f ts suffix] st.store rfl (by omega) (by omega)
    (fun i _ h2i => hfail i h2i)

theorem claim_C8_witness :
    ¬st0.inFlight = some (dedupeToken fdW) ∧
    (∀ i, i ≤ MAX_RETRIES →
      (submitToMockApi fdW (generateIdempotencyKey fdW.email 0)
        ((fun _ => drawFail) i) st0.store DEFAULT_CONFIG).response.success
          = false) ∧
    ((submit st0 fdW 0 "r" (fun _ => drawFail) DEFAULT_CONFIG).outcome =
        SubmitOutcome.failed
          { pendingOf fdW 0 "r" with
            status := Status.error
            retryCount := MAX_RETRIES
            errorMessage := some ("Failed after " ++ toString MAX_RETRIES
              ++ " retries: "
              ++ ((submitToMockApi fdW (generateIdempotencyKey fdW.email 0)
                    ((fun _ => drawFail) MAX_RETRIES) st0.store
                    DEFAULT_CONFIG).response.error.getD
                  "Unknown error occurred")) } ∧
      (submit st0 fdW 0 "r" (fun _ => drawFail)
        DEFAULT_CONFIG).state.store = st0.store ∧
      (submit st0 fdW 0 "r" (fun _ => drawFail)
        DEFAULT_CONFIG).state.inFlight = none ∧
      (submit st0 fdW 0 "r" (fun _ => drawFail)
        DEFAULT_CONFIG).state.isSubmitting = false ∧
      (submit st0 fdW 0 "r" (fun _ => drawFail)
        DEFAULT_CONFIG).state.error =
        some ("Submission failed: "
          ++ ((submitToMockApi fdW (generateIdempotencyKey fdW.email 0)
                ((fun _ => drawFail) MAX_RETRIES) st0.store
                DEFAULT_CONFIG).response.error.getD
              "Unknown error occurred"))) := by
  refine ⟨by simp [st0], ?_, ?_⟩
  · intro i _
    simp [submitToMockApi, storeLookup, drawFail, st0, band_not_le_half,
      half_band]
  · exact claim_C8_all_attempts_fail st0 fdW 0 "r" (fun _ => drawFail)
      DEFAULT_CONFIG (by simp [st0])
      (fun i _ => by
        simp [submitToMockApi, storeLookup, drawFail, st0, band_not_le_half,
          half_band])

/-- Claim C9: a `submit` issued while the same identity+amount token is in
flight fails immediately with the already-in-progress error, performs no
endpoint call, and leaves everything except the error cell exactly as it
was. -/
theorem claim_C9_already_in_progress (st : HookState) (f : FormData)
    (ts : Nat) (suffix : String) (draws : Nat → AttemptDraw)
    (cfg : MockApiConfig) (h : st.inFlight = some (dedupeToken f)) :
    submit st f ts suffix draws cfg =
      { state :=
          { st with error := some "Request already in progress. Please wait." }
        outcome := SubmitOutcome.alreadyInProgress
        endpointCalls := 0
        snapshots := [] } :=
  submit_busy st f ts suffix draws cfg h

theorem claim_C9_witness :
    ({ st0 with inFlight := some (dedupeToken fdW) } : HookState).inFlight
        = some (dedupeToken fdW) ∧
    submit { st0 with inFlight := some (dedupeToken fdW) } fdW 0 "r"
        (fun _ => drawDelay) DEFAULT_CONFIG =
      { state :=
          { { st0 with inFlight := some (dedupeToken fdW) } with
            error := some "Request already in progress. Please wait." }
        outcome := SubmitOutcome.alreadyInProgress
        endpointCalls := 0
        snapshots := [] } :=
  ⟨rfl, claim_C9_already_in_progress
    { st0 with inFlight := some (dedupeToken fdW) } fdW 0 "r"
    (fun _ => drawDelay) DEFAULT_CONFIG rfl⟩

end Spec2Proof
